import Mathlib

/-!
Shallow embedding of src/ocr2table.py (batch table-OCR conversion pipeline).

Files are byte lists (each byte a Nat), paths are strings, the remote OCR
provider is an explicit function parameter, and the filesystem is an explicit
map from full path to content.  Logging of error-level events is modelled by
explicit event lists; info/debug logs are omitted.
-/

namespace Ocr2Table

/-- Bytes of a file: a list of natural numbers (each intended below 256). -/
abbrev Bytes := List Nat

/-! ### base64 (Python base64.b64encode / b64decode, standard alphabet) -/

/-- The standard base64 alphabet used by base64.b64encode. -/
def b64Alphabet : List Char :=
  ['A','B','C','D','E','F','G','H','I','J','K','L','M','N','O','P','Q','R',
   'S','T','U','V','W','X','Y','Z','a','b','c','d','e','f','g','h','i','j',
   'k','l','m','n','o','p','q','r','s','t','u','v','w','x','y','z','0','1',
   '2','3','4','5','6','7','8','9','+','/']

/-- Character for a 6-bit value. -/
def b64Char (n : Nat) : Char := b64Alphabet.getD n 'A'

/-- base64.b64encode on a byte list: 3 input bytes become 4 alphabet
characters; a final 1- or 2-byte group is padded with '=' signs. -/
def b64encode : Bytes → List Char
  | [] => []
  | [a] => [b64Char (a / 4), b64Char (a % 4 * 16), '=', '=']
  | [a, b] => [b64Char (a / 4), b64Char (a % 4 * 16 + b / 16),
               b64Char (b % 16 * 4), '=']
  | a :: b :: c :: rest =>
      b64Char (a / 4) :: b64Char (a % 4 * 16 + b / 16) ::
      b64Char (b % 16 * 4 + c / 64) :: b64Char (c % 64) :: b64encode rest

/-- Numeric value of a base64 alphabet character (64 when not in the
alphabet, e.g. for the padding sign). -/
def b64CharVal (c : Char) : Nat := b64Alphabet.indexOf c

/-- base64.b64decode on well-formed base64 text: each 4-character group
yields up to 3 bytes, '=' padding truncating the final group. -/
def b64decode : List Char → Bytes
  | a :: b :: c :: d :: rest =>
      let x := b64CharVal a * 4 + b64CharVal b / 16
      if c = '=' then [x]
      else
        let y := b64CharVal b % 16 * 16 + b64CharVal c / 4
        if d = '=' then [x, y]
        else x :: y :: (b64CharVal c % 4 * 64 + b64CharVal d) :: b64decode rest
  | _ => []

/-- Length of a base64 encoding: 4 characters per started 3-byte group. -/
theorem b64encode_length : ∀ l : Bytes, (b64encode l).length = 4 * ((l.length + 2) / 3)
  | [] => by simp [b64encode]
  | [_] => by simp [b64encode]
  | [_, _] => by simp [b64encode]
  | _ :: _ :: _ :: rest => by
      simp only [b64encode, List.length_cons, b64encode_length rest]
      omega

/-! ### Constants of ocr2table.py -/

/-- SUPPORT_SUFFIX as written in the source, including the dot-less 'bmp'
entry (line 39 of ocr2table.py). -/
def SUPPORT_SUFFIX : List String := [".png", ".jpg", ".jpeg", "bmp", ".pdf"]

/-- MAX_SIZE = 7 * 1024 ** 2, the maximum accepted base64-encoded size. -/
def MAX_SIZE : Nat := 7 * 1024 ^ 2

/-- IMAGE_DIR = Path('tables'), the input root directory. -/
def IMAGE_DIR : String := "tables"

/-- OUTPUT = Path('output'), the output directory. -/
def OUTPUT : String := "output"

/-! ### pathlib semantics for the final path component -/

/-- Index of the last '.' in a character list, if any. -/
def lastDot (cs : List Char) : Option Nat :=
  ((cs.enum.filter (fun p => p.2 = '.')).map (fun p => p.1)).getLast?

/-- pathlib.PurePath.suffix restricted to a final path component: the text
from the last dot on, provided that dot is neither the first nor the last
character; otherwise the empty string. -/
def pySuffix (name : String) : String :=
  let cs := name.toList
  match lastDot cs with
  | some i => if 0 < i ∧ i + 1 < cs.length then (cs.drop i).asString else ""
  | none => ""

/-- pathlib.PurePath.stem restricted to a final path component: the component
with its suffix (as computed by pySuffix) removed. -/
def pyStem (name : String) : String :=
  let cs := name.toList
  match lastDot cs with
  | some i => if 0 < i ∧ i + 1 < cs.length then (cs.take i).asString else name
  | none => name

/-- pathlib.PurePath.with_suffix restricted to a final path component: drop
the old suffix when there is one, then append the new suffix. -/
def pyWithSuffix (name : String) (suffix : String) : String :=
  if pySuffix name = "" then name ++ suffix
  else (name.toList.take (name.toList.length - (pySuffix name).toList.length)).asString
        ++ suffix

/-! ### File discovery (get_all_files over os.walk) -/

/-- A filesystem path split as directory part and final name component,
modelling the pathlib.Path values the program manipulates. -/
structure PyPath where
  dir : String
  name : String
deriving DecidableEq, Repr

/-- Full path string of a PyPath (directory, separator, name). -/
def fullPath (p : PyPath) : String := p.dir ++ "/" ++ p.name

/-- A directory tree entry: a regular file or a subdirectory with entries. -/
inductive FSEntry where
  | file (name : String)
  | dir (name : String) (entries : List FSEntry)
deriving Repr

/-- The regular files directly inside a directory, as full paths, in listing
order (the files component of one os.walk triple). -/
def topFiles (root : String) (es : List FSEntry) : List PyPath :=
  es.filterMap fun e =>
    match e with
    | .file n => some ⟨root, n⟩
    | .dir _ _ => none

/-- Files of all subdirectories, in os.walk top-down order: for each
subdirectory in listing order, its own files first, then its
subdirectories recursively. -/
def subWalks (root : String) : List FSEntry → List PyPath
  | [] => []
  | .file _ :: rest => subWalks root rest
  | .dir n sub :: rest =>
      topFiles (root ++ "/" ++ n) sub ++ subWalks (root ++ "/" ++ n) sub
        ++ subWalks root rest

/-- All regular files below a root, in os.walk top-down order. -/
def osWalkFiles (root : String) (es : List FSEntry) : List PyPath :=
  topFiles root es ++ subWalks root es

/-- get_all_files (ocr2table.py lines 66-79): walk the IMAGE_DIR tree and
keep exactly the files whose suffix is in SUPPORT_SUFFIX. -/
def get_all_files (tree : List FSEntry) : List PyPath :=
  (osWalkFiles IMAGE_DIR tree).filter fun f =>
    SUPPORT_SUFFIX.contains (pySuffix f.name)

/-! ### Payload encoder, recognition client, orchestrator -/

/-- TencentCloudSDKException, the provider-specific failure. -/
structure SDKError where
  message : String
deriving DecidableEq, Repr

/-- The fields of a RecognizeTableOCRResponse the program reads: the
base64-encoded result artifact and the request identifier. -/
structure OcrResponse where
  data : String
  requestId : String
deriving DecidableEq, Repr

/-- The request parameter dictionary built by get_ocr_result: the payload
plus the optional IsPdf and PdfPageNumber keys. -/
structure OcrRequest where
  imageBase64 : String
  isPdf : Option Bool
  pdfPageNumber : Option Int
deriving DecidableEq, Repr

/-- Error-level log events emitted by the pipeline. -/
inductive LogEvent where
  /-- The size-exceeded error of the encoder, whose message shows MAX_SIZE
  and the encoded size, each divided by 1024 squared (MiB). -/
  | sizeExceeded (size : Nat)
  /-- The logged provider exception of the recognition client. -/
  | sdkError (e : SDKError)
deriving DecidableEq, Repr

/-- Result of the payload encoder: the base64 text to submit (empty string
is the no-payload signal) and the error events logged. -/
structure LoadOut where
  payload : String
  errors : List LogEvent
deriving DecidableEq, Repr

/-- Result of one recognition-client call: the returned artifact bytes, the
request actually submitted to the provider (none when no remote call was
made), and the error events logged. -/
structure OcrCallOut where
  result : Bytes
  request : Option OcrRequest
  errors : List LogEvent
deriving DecidableEq, Repr

/-- The behaviour of the remote provider for one call: either a response or
the provider-specific exception. -/
abbrev RemoteCall := OcrRequest → Except SDKError OcrResponse

/-- The filesystem contents: bytes stored at each full path. -/
abbrev FileSystem := String → Bytes

/-- Models _load_file (ocr2table.py lines 82-91): read the file, base64
encode it; if the encoded length exceeds MAX_SIZE log the size error and
return the empty string, else return the encoded text. -/
def load_file (fs : FileSystem) (file : PyPath) : LoadOut :=
  if (b64encode (fs (fullPath file))).length > MAX_SIZE then
    { payload := ""
      errors := [LogEvent.sizeExceeded (b64encode (fs (fullPath file))).length] }
  else
    { payload := (b64encode (fs (fullPath file))).asString, errors := [] }

/-- The params dictionary built by get_ocr_result (ocr2table.py lines
108-112): the payload, the IsPdf key only for a '.pdf' suffix, and the
PdfPageNumber key only for a truthy (provided and non-zero) page
argument. -/
def buildRequest (payload : String) (file : PyPath) (pdf_page : Option Int) :
    OcrRequest :=
  { imageBase64 := payload
    isPdf := if pySuffix file.name = ".pdf" then some true else none
    pdfPageNumber :=
      match pdf_page with
      | some p => if p = 0 then none else some p
      | none => none }

/-- Models get_ocr_result (ocr2table.py lines 94-126): encode the file and
return empty bytes when there is no payload; otherwise build the request,
call the provider, decode its data on success, and on the provider
exception log it and return empty bytes. -/
def get_ocr_result (call : RemoteCall) (fs : FileSystem) (file : PyPath)
    (pdf_page : Option Int) : OcrCallOut :=
  if (load_file fs file).payload = "" then
    { result := [], request := none, errors := (load_file fs file).errors }
  else
    match call (buildRequest (load_file fs file).payload file pdf_page) with
    | .ok resp =>
        { result := b64decode resp.data.toList
          request := some (buildRequest (load_file fs file).payload file pdf_page)
          errors := (load_file fs file).errors }
    | .error e =>
        { result := []
          request := some (buildRequest (load_file fs file).payload file pdf_page)
          errors := (load_file fs file).errors ++ [LogEvent.sdkError e] }

/-- A remote provider whose behaviour may differ between the calls made for
different files (one call is made per file). -/
abbrev RemoteBehavior := PyPath → RemoteCall

/-- Models collect_data (ocr2table.py lines 129-147): for each file in
order, call get_ocr_result with no page argument and write the returned
bytes to OUTPUT slash stem with the '.xlsx' suffix substituted.  Returns
the writes performed, in order, and the error events logged. -/
def collect_data (remote : RemoteBehavior) (fs : FileSystem) :
    List PyPath → List (String × Bytes) × List LogEvent
  | [] => ([], [])
  | f :: rest =>
      ((OUTPUT ++ "/" ++ pyWithSuffix (pyStem f.name) ".xlsx",
          (get_ocr_result (remote f) fs f none).result)
          :: (collect_data remote fs rest).1,
        (get_ocr_result (remote f) fs f none).errors
          ++ (collect_data remote fs rest).2)

/-- The output path collect_data derives for an input file. -/
def excelPath (f : PyPath) : String :=
  OUTPUT ++ "/" ++ pyWithSuffix (pyStem f.name) ".xlsx"

/-- The single write collect_data performs for an input file. -/
def fileWrite (remote : RemoteBehavior) (fs : FileSystem) (f : PyPath) :
    String × Bytes :=
  (excelPath f, (get_ocr_result (remote f) fs f none).result)

/-- Closed form of the writes of collect_data: one write per input file, in
order, each produced by fileWrite. -/
theorem collect_data_fst (remote : RemoteBehavior) (fs : FileSystem) :
    ∀ files : List PyPath,
      (collect_data remote fs files).1 = files.map (fileWrite remote fs)
  | [] => rfl
  | f :: rest => by
      simp only [collect_data, List.map_cons, collect_data_fst remote fs rest]
      rfl

/-! ### Claim theorems -/

/-- C1: the claim says File Discovery returns exactly the files with
extension in the set containing '.png', '.jpg', '.jpeg', '.bmp' and
'.pdf'.  The code's SUPPORT_SUFFIX holds the dot-less entry 'bmp', which a
pathlib suffix (always dot-initial) can never equal, so '.bmp' files are
skipped at every depth: on a tree holding 'a.bmp', 'b.png', 'sub/c.bmp'
and 'sub/d.pdf', get_all_files returns only the png and pdf files, and
'.bmp' is not in the allow-list the code actually checks. -/
theorem c1_bmp_files_skipped :
    get_all_files [FSEntry.file "a.bmp", FSEntry.file "b.png",
        FSEntry.dir "sub" [FSEntry.file "c.bmp", FSEntry.file "d.pdf"]] =
      [⟨"tables", "b.png"⟩, ⟨"tables/sub", "d.pdf"⟩] ∧
    ".bmp" ∉ SUPPORT_SUFFIX := by
  constructor
  · simp only [get_all_files, osWalkFiles, subWalks, topFiles]
    decide
  · decide

/-- C2 counterexample: two distinct discovered input files can derive the
same output path.  On a tree with 'a/x.png' and 'b/x.pdf' both files are
discovered, they are distinct, yet both derive 'output/x.xlsx'.  Moreover
the derived name is not always the input's base name with '.xlsx'
appended: 'report.v2.pdf' (base name 'report.v2') derives
'output/report.xlsx'. -/
theorem c2_output_collision :
    get_all_files [FSEntry.dir "a" [FSEntry.file "x.png"],
        FSEntry.dir "b" [FSEntry.file "x.pdf"]] =
      [⟨"tables/a", "x.png"⟩, ⟨"tables/b", "x.pdf"⟩] ∧
    (⟨"tables/a", "x.png"⟩ : PyPath) ≠ ⟨"tables/b", "x.pdf"⟩ ∧
    excelPath ⟨"tables/a", "x.png"⟩ = excelPath ⟨"tables/b", "x.pdf"⟩ ∧
    excelPath ⟨"tables", "report.v2.pdf"⟩ = "output/report.xlsx" := by
  refine ⟨?_, by decide, by decide, by decide⟩
  simp only [get_all_files, osWalkFiles, subWalks, topFiles]
  decide

/-- C2 amended: collect_data derives each output path deterministically
from the input's final name component alone (stem taken, then the '.xlsx'
suffix substituted for the stem's own trailing extension, if any), so the
path is independent of directory nesting; but distinct inputs sharing that
derived name write the same path. -/
theorem c2_naming_deterministic (remote : RemoteBehavior) (fs : FileSystem)
    (files : List PyPath) :
    (collect_data remote fs files).1.map Prod.fst = files.map excelPath ∧
    ∀ f g : PyPath, f.name = g.name → excelPath f = excelPath g := by
  constructor
  · rw [collect_data_fst, List.map_map]
    rfl
  · intro f g h
    simp [excelPath, h]

/-- Witness for C2 amended: two files with the same name in different
directories derive the same output path. -/
theorem c2_naming_deterministic_witness :
    (PyPath.name ⟨"tables/a", "x.png"⟩ = PyPath.name ⟨"tables/b", "x.png"⟩) ∧
    excelPath ⟨"tables/a", "x.png"⟩ = excelPath ⟨"tables/b", "x.png"⟩ :=
  ⟨rfl, (c2_naming_deterministic (fun _ _ => Except.error ⟨""⟩)
      (fun _ => []) []).2 ⟨"tables/a", "x.png"⟩ ⟨"tables/b", "x.png"⟩ rfl⟩

/-- C5: collect_data writes exactly one output artifact per discovered
file, in order, at the derived output path, holding whatever bytes the
recognition step returned for that file — possibly the empty byte string,
which is the failure artifact. -/
theorem c5_every_file_written (remote : RemoteBehavior) (fs : FileSystem)
    (files : List PyPath) :
    (collect_data remote fs files).1 =
      files.map fun f =>
        (excelPath f, (get_ocr_result (remote f) fs f none).result) := by
  rw [collect_data_fst]
  rfl

/-- Characterization of the request submitted by get_ocr_result: none
exactly when the encoder produced no payload, and otherwise the request
built from the payload, the suffix and the page argument. -/
theorem get_ocr_result_request (call : RemoteCall) (fs : FileSystem)
    (f : PyPath) (p : Option Int) :
    (get_ocr_result call fs f p).request =
      if (load_file fs f).payload = "" then none
      else some (buildRequest (load_file fs f).payload f p) := by
  unfold get_ocr_result
  split
  · rfl
  · split <;> rfl

/-- Payloads the encoder accepts come with no logged error. -/
theorem load_file_accepted_no_error (fs : FileSystem) (f : PyPath)
    (h : (load_file fs f).payload ≠ "") : (load_file fs f).errors = [] := by
  revert h
  unfold load_file
  split <;> simp

/-- C3: a file whose base64 encoding has length exactly MAX_SIZE is
accepted (a request is submitted and no error is logged), while a file
whose base64 encoding is longer is rejected locally: the encoder logs the
size-exceeded error carrying the encoded size, returns the no-payload
signal, and the client makes no remote call and returns empty bytes. -/
theorem c3_size_boundary (call : RemoteCall) (fs₁ fs₂ : FileSystem)
    (f₁ f₂ : PyPath) (p₁ p₂ : Option Int)
    (hmax : (b64encode (fs₁ (fullPath f₁))).length = MAX_SIZE)
    (hover : MAX_SIZE < (b64encode (fs₂ (fullPath f₂))).length) :
    (get_ocr_result call fs₁ f₁ p₁).request ≠ none ∧
    (load_file fs₁ f₁).errors = [] ∧
    (get_ocr_result call fs₂ f₂ p₂).request = none ∧
    (get_ocr_result call fs₂ f₂ p₂).result = [] ∧
    (load_file fs₂ f₂).payload = "" ∧
    (load_file fs₂ f₂).errors =
      [LogEvent.sizeExceeded (b64encode (fs₂ (fullPath f₂))).length] := by
  have h1 : load_file fs₁ f₁ =
      { payload := (b64encode (fs₁ (fullPath f₁))).asString, errors := [] } := by
    unfold load_file
    rw [if_neg (by omega)]
  have hne : (b64encode (fs₁ (fullPath f₁))).asString ≠ "" := by
    intro h
    have h0 : b64encode (fs₁ (fullPath f₁)) = [] := by
      have := congrArg String.toList h
      simpa using this
    rw [h0] at hmax
    simp [MAX_SIZE] at hmax
  have h2 : load_file fs₂ f₂ =
      { payload := ""
        errors :=
          [LogEvent.sizeExceeded (b64encode (fs₂ (fullPath f₂))).length] } := by
    unfold load_file
    rw [if_pos (by omega)]
  refine ⟨?_, by rw [h1], ?_, ?_, by rw [h2], by rw [h2]⟩
  · rw [get_ocr_result_request, h1]
    simp [hne]
  · rw [get_ocr_result_request, h2]
    simp
  · simp [get_ocr_result, h2]

/-- C4: when the provider call raises its provider-specific exception for
a submitted payload, get_ocr_result catches it: it returns empty bytes,
the request was submitted, and the only logged error is the provider
exception — nothing propagates out of the per-file call. -/
theorem c4_provider_failure_contained (call : RemoteCall) (fs : FileSystem)
    (f : PyPath) (p : Option Int) (e : SDKError)
    (hfail : ∀ r, call r = Except.error e)
    (hpay : (load_file fs f).payload ≠ "") :
    (get_ocr_result call fs f p).result = [] ∧
    (get_ocr_result call fs f p).request ≠ none ∧
    (get_ocr_result call fs f p).errors = [LogEvent.sdkError e] := by
  have herr := load_file_accepted_no_error fs f hpay
  unfold get_ocr_result
  rw [if_neg hpay, hfail]
  simp [herr]

/-- C6: whenever get_ocr_result submits a request, that request carries
the IsPdf flag exactly when the file's suffix is '.pdf', and carries no
IsPdf key for any other suffix. -/
theorem c6_pdf_flag (call : RemoteCall) (fs : FileSystem) (f : PyPath)
    (p : Option Int) (q : OcrRequest)
    (hreq : (get_ocr_result call fs f p).request = some q) :
    (pySuffix f.name = ".pdf" → q.isPdf = some true) ∧
    (pySuffix f.name ≠ ".pdf" → q.isPdf = none) := by
  rw [get_ocr_result_request] at hreq
  by_cases hp : (load_file fs f).payload = ""
  · rw [if_pos hp] at hreq
    exact absurd hreq (by simp)
  · rw [if_neg hp] at hreq
    obtain rfl : _ = q := Option.some.inj hreq
    constructor <;> intro h <;> simp [buildRequest, h]

/-- C7: whenever get_ocr_result submits a request, the PdfPageNumber key
is present with value n exactly when the page argument was provided as a
non-zero n; when the argument is omitted or zero the key is absent. -/
theorem c7_page_field (call : RemoteCall) (fs : FileSystem) (f : PyPath)
    (p : Option Int) (q : OcrRequest)
    (hreq : (get_ocr_result call fs f p).request = some q) :
    (∀ n : Int, p = some n → n ≠ 0 → q.pdfPageNumber = some n) ∧
    ((p = none ∨ p = some 0) → q.pdfPageNumber = none) := by
  rw [get_ocr_result_request] at hreq
  by_cases hp : (load_file fs f).payload = ""
  · rw [if_pos hp] at hreq
    exact absurd hreq (by simp)
  · rw [if_neg hp] at hreq
    obtain rfl : _ = q := Option.some.inj hreq
    constructor
    · intro n hn hnz
      subst hn
      simp [buildRequest, hnz]
    · rintro (rfl | rfl) <;> simp [buildRequest]

/-- C8: per-file fault isolation.  For two provider behaviours that agree
on every file other than B, with the second failing every call for B, the
batch writes are the per-file fileWrite values in both runs, the write of
every file other than B is identical across the two runs, and B's write in
the failing run carries empty bytes. -/
theorem c8_fault_isolation (remote₁ remote₂ : RemoteBehavior)
    (fs : FileSystem) (files : List PyPath) (B : PyPath) (e : SDKError)
    (hagree : ∀ f : PyPath, f ≠ B → remote₁ f = remote₂ f)
    (hfail : ∀ r, remote₂ B r = Except.error e) :
    (collect_data remote₁ fs files).1 = files.map (fileWrite remote₁ fs) ∧
    (collect_data remote₂ fs files).1 = files.map (fileWrite remote₂ fs) ∧
    (∀ f ∈ files, f ≠ B → fileWrite remote₁ fs f = fileWrite remote₂ fs f) ∧
    (fileWrite remote₂ fs B).2 = [] := by
  refine ⟨collect_data_fst _ _ _, collect_data_fst _ _ _, ?_, ?_⟩
  · intro f _ hf
    unfold fileWrite
    rw [hagree f hf]
  · show (get_ocr_result (remote₂ B) fs B none).result = []
    by_cases hp : (load_file fs B).payload = ""
    · simp [get_ocr_result, hp]
    · unfold get_ocr_result
      rw [if_neg hp, hfail]

/-- C9: the batch orchestrator invokes the recognition client with no page
argument, so its writes are exactly the no-page-argument fileWrite values,
and every request submitted during the batch omits the PdfPageNumber key
(the remote default, page 1, always applies). -/
theorem c9_first_page_only (remote : RemoteBehavior) (fs : FileSystem)
    (files : List PyPath) :
    (collect_data remote fs files).1 = files.map (fileWrite remote fs) ∧
    ∀ (f : PyPath) (q : OcrRequest),
      (get_ocr_result (remote f) fs f none).request = some q →
      q.pdfPageNumber = none := by
  refine ⟨collect_data_fst _ _ _, ?_⟩
  intro f q hreq
  rw [get_ocr_result_request] at hreq
  by_cases hp : (load_file fs f).payload = ""
  · rw [if_pos hp] at hreq
    exact absurd hreq (by simp)
  · rw [if_neg hp] at hreq
    obtain rfl : _ = q := Option.some.inj hreq
    simp [buildRequest]

/-- C10: a zero-byte input encodes to the empty string, which is the
no-payload signal: no request is submitted, no error is logged, the
result is empty, and the batch still writes an empty output artifact for
the file — the same artifact a failed file receives. -/
theorem c10_zero_byte_input (remote : RemoteBehavior) (fs : FileSystem)
    (f : PyPath) (h : fs (fullPath f) = []) :
    (load_file fs f).payload = "" ∧
    (load_file fs f).errors = [] ∧
    (get_ocr_result (remote f) fs f none).request = none ∧
    (get_ocr_result (remote f) fs f none).errors = [] ∧
    (get_ocr_result (remote f) fs f none).result = [] ∧
    fileWrite remote fs f = (excelPath f, []) := by
  have hl : load_file fs f = { payload := "", errors := [] } := by
    unfold load_file
    rw [h]
    simp [b64encode, MAX_SIZE]
    rfl
  refine ⟨by rw [hl], by rw [hl], ?_, ?_, ?_, ?_⟩
  all_goals simp [fileWrite, get_ocr_result, hl]

/-! ### Witnesses -/

/-- Witness for C3: a 5505024-byte file encodes to exactly MAX_SIZE
characters and is submitted; a 5505025-byte file encodes over the limit. -/
theorem c3_size_boundary_witness :
    (b64encode (List.replicate 5505024 0 : Bytes)).length = MAX_SIZE ∧
    MAX_SIZE < (b64encode (List.replicate 5505025 0 : Bytes)).length ∧
    (get_ocr_result (fun _ => Except.error ⟨"boom"⟩)
        (fun _ => List.replicate 5505024 0) ⟨"tables", "max.png"⟩
        none).request ≠ none :=
  have h1 : (b64encode (List.replicate 5505024 0 : Bytes)).length = MAX_SIZE := by
    simp only [b64encode_length, List.length_replicate]
    decide
  have h2 : MAX_SIZE < (b64encode (List.replicate 5505025 0 : Bytes)).length := by
    simp only [b64encode_length, List.length_replicate]
    decide
  ⟨h1, h2,
    (c3_size_boundary (fun _ => Except.error ⟨"boom"⟩)
        (fun _ => List.replicate 5505024 0) (fun _ => List.replicate 5505025 0)
        ⟨"tables", "max.png"⟩ ⟨"tables", "over.png"⟩ none none h1 h2).1⟩

/-- Witness for C4: an always-failing provider on a small accepted file
yields the empty result. -/
theorem c4_provider_failure_contained_witness :
    (∀ r : OcrRequest,
        (fun _ : OcrRequest =>
            (Except.error ⟨"AuthFailure"⟩ : Except SDKError OcrResponse)) r =
          Except.error ⟨"AuthFailure"⟩) ∧
    (load_file (fun _ => [1, 2, 3]) ⟨"tables", "x.png"⟩).payload ≠ "" ∧
    (get_ocr_result
        (fun _ => Except.error ⟨"AuthFailure"⟩) (fun _ => [1, 2, 3])
        ⟨"tables", "x.png"⟩ none).result = [] :=
  have hf : ∀ r : OcrRequest,
      (fun _ : OcrRequest =>
          (Except.error ⟨"AuthFailure"⟩ : Except SDKError OcrResponse)) r =
        Except.error ⟨"AuthFailure"⟩ := fun _ => rfl
  have hp : (load_file (fun _ => [1, 2, 3]) ⟨"tables", "x.png"⟩).payload ≠ "" := by
    decide
  ⟨hf, hp,
    (c4_provider_failure_contained (fun _ => Except.error ⟨"AuthFailure"⟩)
        (fun _ => [1, 2, 3]) ⟨"tables", "x.png"⟩ none ⟨"AuthFailure"⟩ hf hp).1⟩

/-- Witness for C6: a submitted pdf file carries the IsPdf flag. -/
theorem c6_pdf_flag_witness :
    (get_ocr_result (fun _ => Except.ok ⟨"AQID", "rid"⟩) (fun _ => [1, 2, 3])
        ⟨"tables", "x.pdf"⟩ none).request =
      some ⟨"AQID", some true, none⟩ ∧
    (⟨"AQID", some true, none⟩ : OcrRequest).isPdf = some true :=
  have hreq : (get_ocr_result (fun _ => Except.ok ⟨"AQID", "rid"⟩)
      (fun _ => [1, 2, 3]) ⟨"tables", "x.pdf"⟩ none).request =
        some ⟨"AQID", some true, none⟩ := by decide
  ⟨hreq,
    (c6_pdf_flag (fun _ => Except.ok ⟨"AQID", "rid"⟩) (fun _ => [1, 2, 3])
        ⟨"tables", "x.pdf"⟩ none ⟨"AQID", some true, none⟩ hreq).1 (by decide)⟩

/-- Witness for C7: a request submitted with page argument 2 carries the
PdfPageNumber key with value 2. -/
theorem c7_page_field_witness :
    (get_ocr_result (fun _ => Except.ok ⟨"AQID", "rid"⟩) (fun _ => [1, 2, 3])
        ⟨"tables", "x.pdf"⟩ (some 2)).request =
      some ⟨"AQID", some true, some 2⟩ ∧
    (⟨"AQID", some true, some 2⟩ : OcrRequest).pdfPageNumber = some 2 :=
  have hreq : (get_ocr_result (fun _ => Except.ok ⟨"AQID", "rid"⟩)
      (fun _ => [1, 2, 3]) ⟨"tables", "x.pdf"⟩ (some 2)).request =
        some ⟨"AQID", some true, some 2⟩ := by decide
  ⟨hreq,
    (c7_page_field (fun _ => Except.ok ⟨"AQID", "rid"⟩) (fun _ => [1, 2, 3])
        ⟨"tables", "x.pdf"⟩ (some 2) ⟨"AQID", some true, some 2⟩ hreq).1 2 rfl
      (by decide)⟩

/-- Witness for C8: with a provider failing only for file 'b.png', that
file's write carries empty bytes. -/
theorem c8_fault_isolation_witness :
    (∀ f : PyPath, f ≠ ⟨"tables", "b.png"⟩ →
        (fun _ : PyPath => fun _ : OcrRequest =>
            (Except.ok ⟨"AQID", "rid"⟩ : Except SDKError OcrResponse)) f =
          (fun g : PyPath => fun _ : OcrRequest =>
            if g = ⟨"tables", "b.png"⟩ then Except.error ⟨"quota"⟩
            else Except.ok ⟨"AQID", "rid"⟩) f) ∧
    (∀ r : OcrRequest,
        (fun g : PyPath => fun _ : OcrRequest =>
            if g = ⟨"tables", "b.png"⟩ then
              (Except.error ⟨"quota"⟩ : Except SDKError OcrResponse)
            else Except.ok ⟨"AQID", "rid"⟩) ⟨"tables", "b.png"⟩ r =
          Except.error ⟨"quota"⟩) ∧
    (fileWrite
        (fun g : PyPath => fun _ : OcrRequest =>
          if g = ⟨"tables", "b.png"⟩ then Except.error ⟨"quota"⟩
          else Except.ok ⟨"AQID", "rid"⟩)
        (fun _ => [1, 2, 3]) ⟨"tables", "b.png"⟩).2 = [] :=
  have hagree : ∀ f : PyPath, f ≠ ⟨"tables", "b.png"⟩ →
      (fun _ : PyPath => fun _ : OcrRequest =>
          (Except.ok ⟨"AQID", "rid"⟩ : Except SDKError OcrResponse)) f =
        (fun g : PyPath => fun _ : OcrRequest =>
          if g = ⟨"tables", "b.png"⟩ then Except.error ⟨"quota"⟩
          else Except.ok ⟨"AQID", "rid"⟩) f := by
    intro f hf
    simp [hf]
  have hfail : ∀ r : OcrRequest,
      (fun g : PyPath => fun _ : OcrRequest =>
          if g = ⟨"tables", "b.png"⟩ then
            (Except.error ⟨"quota"⟩ : Except SDKError OcrResponse)
          else Except.ok ⟨"AQID", "rid"⟩) ⟨"tables", "b.png"⟩ r =
        Except.error ⟨"quota"⟩ := by
    intro r
    simp
  ⟨hagree, hfail,
    (c8_fault_isolation _ _ (fun _ => [1, 2, 3])
        [⟨"tables", "a.png"⟩, ⟨"tables", "b.png"⟩] ⟨"tables", "b.png"⟩
        ⟨"quota"⟩ hagree hfail).2.2.2⟩

/-- Witness for C9: in a batch run over one pdf file the submitted request
omits the page-number field. -/
theorem c9_first_page_only_witness :
    (get_ocr_result
        ((fun _ : PyPath => fun _ : OcrRequest =>
          (Except.ok ⟨"AQID", "rid"⟩ : Except SDKError OcrResponse))
            ⟨"tables", "x.pdf"⟩)
        (fun _ => [1, 2, 3]) ⟨"tables", "x.pdf"⟩ none).request =
      some ⟨"AQID", some true, none⟩ ∧
    (⟨"AQID", some true, none⟩ : OcrRequest).pdfPageNumber = none :=
  have hreq : (get_ocr_result
      ((fun _ : PyPath => fun _ : OcrRequest =>
        (Except.ok ⟨"AQID", "rid"⟩ : Except SDKError OcrResponse))
          ⟨"tables", "x.pdf"⟩)
      (fun _ => [1, 2, 3]) ⟨"tables", "x.pdf"⟩ none).request =
        some ⟨"AQID", some true, none⟩ := by decide
  ⟨hreq,
    (c9_first_page_only
        (fun _ : PyPath => fun _ : OcrRequest =>
          (Except.ok ⟨"AQID", "rid"⟩ : Except SDKError OcrResponse))
        (fun _ => [1, 2, 3]) []).2 ⟨"tables", "x.pdf"⟩
      ⟨"AQID", some true, none⟩ hreq⟩

/-- Witness for C10: a zero-byte png input produces the empty-bytes write
with no request and no logged error. -/
theorem c10_zero_byte_input_witness :
    ((fun _ : String => ([] : Bytes)) (fullPath ⟨"tables", "empty.png"⟩) = []) ∧
    (get_ocr_result
        ((fun _ : PyPath => fun _ : OcrRequest =>
          (Except.ok ⟨"AQID", "rid"⟩ : Except SDKError OcrResponse))
            ⟨"tables", "empty.png"⟩)
        (fun _ => []) ⟨"tables", "empty.png"⟩ none).request = none :=
  have h : (fun _ : String => ([] : Bytes)) (fullPath ⟨"tables", "empty.png"⟩)
      = [] := rfl
  ⟨h,
    (c10_zero_byte_input
        (fun _ : PyPath => fun _ : OcrRequest =>
          (Except.ok ⟨"AQID", "rid"⟩ : Except SDKError OcrResponse))
        (fun _ => []) ⟨"tables", "empty.png"⟩ h).2.2.1⟩

end Ocr2Table
